import Mathlib

/-!
Shallow embedding of the asynchronous task-processing pipeline of the
e-commerce backend (apps/orders/tasks.py, apps/reports/tasks.py,
apps/reports/views.py, apps/reports/admin.py, reports/serializers.py),
together with theorems settling the specification claims about it.

Business records and job records are modelled as explicit state that the
task bodies transform; an exception raised by the Python code is an
`Except.error`, a value returned normally is an `Except.ok`.
-/

namespace Fullstack

/- ## Order-processing side (src/backend/apps/orders) -/

/-- Order.Status choices (orders/models.py lines 29-36). -/
inductive OrderStatus
  | pending | processing | confirmed | shipped | delivered | cancelled | refunded
deriving DecidableEq, Repr

/-- Product record, the fields touched by process_order
(products/models.py: stock_quantity, sales_count). -/
structure Product where
  pid : Nat
  name : String
  sku : String
  stock_quantity : Int
  sales_count : Int
deriving DecidableEq, Repr

/-- OrderItem line (orders/models.py): the product reference and quantity. -/
structure OrderItem where
  productId : Nat
  quantity : Int
deriving DecidableEq, Repr

/-- Order record, the fields read and written by process_order. -/
structure Order where
  oid : Nat
  order_number : String
  status : OrderStatus
  items : List OrderItem
deriving DecidableEq, Repr

/-- OrderStatusHistory audit row (orders/models.py lines 179-202). -/
structure OrderStatusHistoryRow where
  orderId : Nat
  status : OrderStatus
  notes : String
deriving DecidableEq, Repr

/-- The business state touched by the order tasks: order table, product
table, audit-trail table, and the chains handed to the task queue
(each chain is the list of (task name, order id) signatures). -/
structure OrdersState where
  orders : List Order
  products : List Product
  history : List OrderStatusHistoryRow
  queuedChains : List (List (String × Nat))
deriving DecidableEq, Repr

/-- Order.objects.get(id=order_id): first order with the given id. -/
def findOrder (s : OrdersState) (orderId : Nat) : Option Order :=
  s.orders.find? (fun o => o.oid == orderId)

/-- item.product lookup: first product with the given id. -/
def findProduct (s : OrdersState) (productId : Nat) : Option Product :=
  s.products.find? (fun p => p.pid == productId)

/-- The idempotency guard list of process_order (orders/tasks.py line 54). -/
def alreadyProcessedStatuses : List OrderStatus :=
  [.processing, .shipped, .delivered]

/-- The stock-validation loop (orders/tasks.py lines 63-67): the first
line item whose product is missing or whose stock is below the ordered
quantity raises; the message of that first failure, if any. -/
def stockValidationError (s : OrdersState) : List OrderItem → Option String
  | [] => none
  | it :: rest =>
    match findProduct s it.productId with
    | none => some "Product matching query does not exist."
    | some p =>
      if p.stock_quantity < it.quantity then
        some ("Insufficient stock for " ++ p.name)
      else
        stockValidationError s rest

/-- One iteration of the inventory-update loop body (orders/tasks.py
lines 71-75). The loop iterates a fresh queryset materialized by a
single SELECT, so the product instance it mutates holds the values as
fetched by that query — the pre-loop snapshot — not anything written by
an earlier iteration; the save then clobbers the row with
snapshot-derived values. `snapshot` is the product table at loop start
and `products` the table as written so far. (The missing-product branch
is unreachable: the foreign key join always materializes the product.) -/
def applyItemDecrement (snapshot : List Product) (products : List Product)
    (it : OrderItem) : List Product :=
  match snapshot.find? (fun p => p.pid == it.productId) with
  | none => products
  | some p =>
    products.map (fun dbp =>
      if dbp.pid == it.productId then
        { dbp with stock_quantity := p.stock_quantity - it.quantity,
                   sales_count := p.sales_count + it.quantity }
      else dbp)

/-- The full inventory-update loop: each line item writes its product
row from the pre-loop snapshot, so a later line item for the same
product overwrites the earlier write (a read-modify-write lost update),
leaving the row at snapshot stock minus the last quantity only. -/
def decrementStock (products : List Product) (items : List OrderItem) : List Product :=
  items.foldl (applyItemDecrement products) products

/-- Total quantity of one product ordered across the line items of an
order; the net effect of the update loop on that product. -/
def orderedQty (items : List OrderItem) (productId : Nat) : Int :=
  ((items.filter (fun it => it.productId == productId)).map (fun it => it.quantity)).sum

/-- Dictionaries returned by the order task bodies. -/
inductive TaskOutcome
  | errorResult (message : String)
  | skipped (message : String)
  | success (orderId : Nat) (orderNumber : String)
deriving DecidableEq, Repr

/-- One execution of process_order (orders/tasks.py lines 27-112).
Returns the new state, and either the returned dictionary or the raised
exception message. -/
def process_order (orderId : Nat) (s : OrdersState) :
    OrdersState × Except String TaskOutcome :=
  match findOrder s orderId with
  | none =>
    -- lines 47-51: Order.DoesNotExist is caught and an error dict returned
    (s, .ok (.errorResult "Order not found"))
  | some order =>
    if order.status ∈ alreadyProcessedStatuses then
      -- lines 53-56: idempotency guard
      (s, .ok (.skipped "Order already processed"))
    else
      match stockValidationError s order.items with
      | some msg =>
        -- lines 63-67: the validation loop raises before any write
        (s, .error msg)
      | none =>
        -- lines 69-98: decrement stock, set order status, append audit
        -- row, enqueue the confirmation/warehouse chain
        let products1 := decrementStock s.products order.items
        let orders1 := s.orders.map (fun o =>
          if o.oid == orderId then { o with status := .processing } else o)
        let history1 := s.history ++
          [⟨orderId, .processing, "Order processing started"⟩]
        let chains1 := s.queuedChains ++
          [[("send_order_confirmation", orderId), ("notify_warehouse", orderId)]]
        ({ orders := orders1, products := products1,
           history := history1, queuedChains := chains1 },
         .ok (.success orderId order.order_number))

/-- retry_kwargs of process_order (orders/tasks.py line 23). -/
def process_order_max_retries : Nat := 3

/-- retry_kwargs countdown of process_order (orders/tasks.py line 23). -/
def process_order_countdown : Nat := 5

/- ## Worker retry loop -/

/-- Observable trace of running one job through the worker: final state,
number of executions of the task body, the re-enqueue delay used before
each retry, and the final outcome. -/
structure RunTrace (σ ε α : Type) where
  finalState : σ
  executions : Nat
  delays : List Nat
  outcome : Except ε α
deriving Repr

/-- Modelled from the spec: the Worker Executor retry loop (section 4.3
step 6) as implemented by the external task-queue library for a task
declared with autoretry_for=(Exception,) and retry_kwargs, which is not
under src/. `fuel` is the number of retries still allowed; every failed
execution below the budget is re-enqueued after the configured countdown,
and the exception of the execution that exhausts the budget is final. -/
def runAttempts {σ ε α : Type} (attempt : σ → σ × Except ε α) (countdown : Nat) :
    Nat → σ → RunTrace σ ε α
  | 0, s =>
    match attempt s with
    | (s1, .ok a) => ⟨s1, 1, [], .ok a⟩
    | (s1, .error e) => ⟨s1, 1, [], .error e⟩
  | fuel1 + 1, s =>
    match attempt s with
    | (s1, .ok a) => ⟨s1, 1, [], .ok a⟩
    | (s1, .error _) =>
      let t := runAttempts attempt countdown fuel1 s1
      ⟨t.finalState, t.executions + 1, countdown :: t.delays, t.outcome⟩

/-- Run a task with the given max_retries budget and fixed countdown. -/
def runWithRetries {σ ε α : Type} (maxRetries countdown : Nat)
    (attempt : σ → σ × Except ε α) (s : σ) : RunTrace σ ε α :=
  runAttempts attempt countdown maxRetries s

/- ## Report-generation side (src/backend/apps/reports) -/

/-- Report.Status choices (reports/models.py lines 38-43). -/
inductive ReportStatus
  | pending | processing | completed | failed | cancelled
deriving DecidableEq, Repr

/-- The TextChoices value strings of Report.Status. -/
def statusText : ReportStatus → String
  | .pending => "pending"
  | .processing => "processing"
  | .completed => "completed"
  | .failed => "failed"
  | .cancelled => "cancelled"

/-- The parameters payload of a sales report: start_date and end_date
(dates modelled as day ordinals). -/
structure ReportParameters where
  start_date : Nat
  end_date : Nat
deriving DecidableEq, Repr

/-- The summary dictionary built by _generate_sales_report
(reports/tasks.py lines 204-212); money modelled as rationals. -/
structure SalesSummary where
  total_orders : Nat
  total_revenue : Rat
  average_order_value : Rat
  period : String
deriving DecidableEq, Repr

/-- A business order as the sales report sees it (order_number,
created_at, user email, total, status, soft-delete flag). -/
structure BusinessOrder where
  order_number : String
  created_at : Nat
  user_email : String
  total : Rat
  status : String
  is_deleted : Bool
deriving DecidableEq, Repr

/-- Report record (reports/models.py lines 20-111), the fields touched by
the task pipeline. celery_task_id is none while the CharField is blank. -/
structure Report where
  status : ReportStatus
  parameters : ReportParameters
  celery_task_id : Option String
  progress : Nat
  progress_message : String
  result_data : Option SalesSummary
  result_file : Option (List (List String))
  error_message : String
  retry_count : Nat
  started_at : Option Nat
  completed_at : Option Nat
  expires_at : Option Nat
deriving DecidableEq, Repr

/-- State around one report job: its Report record, the business orders
it queries, the log of persisted progress writes (each report.save that
includes the progress field appends the value written), the follow-up
chains handed to the queue, whether a generate_report message is still
queued, whether it has been revoked, and how many times the task body
has run. -/
structure ReportState where
  report : Report
  orders_db : List BusinessOrder
  progress_writes : List Nat
  queued_chains : List (List String)
  queued_task : Bool
  revoked : Bool
  handler_runs : Nat
deriving DecidableEq, Repr

/-- A persisted progress update: report.progress and progress_message are
saved and the write is logged. -/
def writeProgress (st : ReportState) (p : Nat) (msg : String) : ReportState :=
  { st with report := { st.report with progress := p, progress_message := msg },
            progress_writes := st.progress_writes ++ [p] }

/-- Result of one report generator: the summary and the CSV rows. -/
structure GenResult where
  summary : SalesSummary
  csv_content : List (List String)
deriving DecidableEq, Repr

/-- A report generator in the _generate_X_report family: transforms the
state (progress writes) and either returns a result or raises. -/
abbrev Generator := ReportState → ReportState × Except String GenResult

/-- The order query of the sales report (reports/tasks.py lines 159-163):
created_at within the range, not soft-deleted. -/
def ordersInRange (db : List BusinessOrder) (startDate endDate : Nat) :
    List BusinessOrder :=
  db.filter (fun o =>
    decide (startDate ≤ o.created_at) && decide (o.created_at ≤ endDate) && !o.is_deleted)

/-- The CSV built by the sales report (reports/tasks.py lines 185-196):
a header row, then one row per order of the queryset sliced to the first
1000 rows. -/
def salesCsvRows (orders : List BusinessOrder) : List (List String) :=
  ["Order Number", "Date", "Customer", "Total", "Status"] ::
    (orders.take 1000).map (fun o =>
      [o.order_number, toString o.created_at, o.user_email, toString o.total, o.status])

/-- _generate_sales_report (reports/tasks.py lines 143-212): progress
writes at 30/50/70/90, the aggregate metrics, and the CSV. -/
def generate_sales_report : Generator := fun st =>
  let st1 := writeProgress st 30 "Fetching sales data"
  let startDate := st1.report.parameters.start_date
  let endDate := st1.report.parameters.end_date
  let orders := ordersInRange st1.orders_db startDate endDate
  let st2 := writeProgress st1 50 "Calculating metrics"
  let totalOrders := orders.length
  let totalRevenue : Rat := (orders.map (fun o => o.total)).sum
  let avgOrderValue : Rat :=
    if totalOrders = 0 then 0 else totalRevenue / (totalOrders : Rat)
  let st3 := writeProgress st2 70 "Generating CSV"
  let csv := salesCsvRows orders
  let st4 := writeProgress st3 90 "Finalizing report"
  (st4, .ok { summary := { total_orders := totalOrders,
                           total_revenue := totalRevenue,
                           average_order_value := avgOrderValue,
                           period := toString startDate ++ " to " ++ toString endDate },
              csv_content := csv })

/-- A generator standing for a handler that always throws a transient
error. -/
def failing_generator (msg : String) : Generator := fun st => (st, .error msg)

/-- The opening of the generate_report task body (reports/tasks.py lines
58-75): the record is unconditionally marked processing, the task id and
start time stored, and progress 10 persisted. -/
def attempt_setup (taskId : String) (now : Nat) (st : ReportState) : ReportState :=
  -- lines 58-64: claim the record, mark processing, store task id and start time
  let st1 := { st with
               report := { st.report with
                           status := .processing,
                           celery_task_id := some taskId,
                           started_at := some now } }
  -- lines 68-75: first persisted progress write (10%)
  writeProgress st1 10 "Initializing report generation"

/-- One execution of the generate_report task body (reports/tasks.py
lines 38-140), parametric in the generator selected by the report_type
dispatch of lines 81-92. On generator success the result, progress 100
and completed status are saved and the post-processing chain is
enqueued; on generator failure the failed status, error message and
incremented retry_count are saved and the exception propagates to the
retry machinery. -/
def generate_report_attempt (gen : Generator) (taskId : String) (now : Nat)
    (st : ReportState) : ReportState × Except String SalesSummary :=
  let st2 := attempt_setup taskId now st
  match gen st2 with
  | (st3, .ok res) =>
    -- lines 94-119: save results, mark completed, enqueue follow-up chain
    let r1 := { st3.report with
                result_data := some res.summary,
                progress := 100,
                progress_message := "Report completed",
                status := .completed,
                completed_at := some now,
                expires_at := some (now + 30),
                result_file := some res.csv_content }
    let st4 := { st3 with
                 report := r1,
                 progress_writes := st3.progress_writes ++ [100],
                 queued_chains := st3.queued_chains ++
                   [["post_process_report", "send_report_notification"]] }
    (st4, .ok res.summary)
  | (st3, .error e) =>
    -- lines 134-140: mark failed, persist error, bump retry_count, re-raise
    let st4 := { st3 with
                 report := { st3.report with
                             status := .failed,
                             error_message := e,
                             retry_count := st3.report.retry_count + 1 } }
    (st4, .error e)

/-- retry_kwargs of generate_report (reports/tasks.py line 33). -/
def generate_report_max_retries : Nat := 3

/-- retry_kwargs countdown of generate_report (reports/tasks.py line 33). -/
def generate_report_countdown : Nat := 60

/-- ReportCreateSerializer.create (reports/serializers.py lines 91-112):
a new Report record is pending with blank celery_task_id and a
generate_report message is enqueued; the queue message id is not
persisted on the record. -/
def create_report (params : ReportParameters) (db : List BusinessOrder) : ReportState :=
  { report := { status := .pending, parameters := params, celery_task_id := none,
                progress := 0, progress_message := "", result_data := none,
                result_file := none, error_message := "", retry_count := 0,
                started_at := none, completed_at := none, expires_at := none },
    orders_db := db, progress_writes := [], queued_chains := [],
    queued_task := true, revoked := false, handler_runs := 0 }

/-- Response of the cancel endpoint. -/
inductive CancelResponse
  | cancelled
  | badRequest (message : String)
deriving DecidableEq, Repr

/-- ReportViewSet.cancel (reports/views.py lines 130-156): rejected with
HTTP 400 unless the status is still pending or processing; the queue
message is revoked only when a celery_task_id has been persisted; then
the record is marked cancelled. -/
def cancel_report (st : ReportState) : ReportState × CancelResponse :=
  if st.report.status = .pending ∨ st.report.status = .processing then
    let st1 :=
      match st.report.celery_task_id with
      | some _ => { st with revoked := true }
      | none => st
    ({ st1 with report := { st1.report with status := .cancelled } }, .cancelled)
  else
    (st, .badRequest ("Cannot cancel report with status: " ++ statusText st.report.status))

/-- ReportAdmin.retry_failed_reports applied to one report
(reports/admin.py lines 127-141): only failed reports are selected; each
is reset to pending with a cleared error message and re-enqueued. -/
def retry_failed_report (st : ReportState) : ReportState :=
  if st.report.status = .failed then
    { st with report := { st.report with status := .pending, error_message := "" },
              queued_task := true }
  else st

/-- Modelled from the spec: queue visibility and revocation (sections 4.2
and 4.3 steps 1-2) are implemented by the external task-queue library,
not under src/. A worker delivers a still-queued, unrevoked message to
the task body; a revoked or absent message is dropped. -/
def worker_step (gen : Generator) (taskId : String) (now : Nat)
    (st : ReportState) : ReportState :=
  if st.queued_task && !st.revoked then
    let st1 := { st with queued_task := false, handler_runs := st.handler_runs + 1 }
    (generate_report_attempt gen taskId now st1).1
  else st

/- ## Chain orchestration -/

/-- Terminal status a chain link records. -/
inductive LinkStatus
  | completed | failed
deriving DecidableEq, Repr

/-- Job Record left behind by one executed chain link. -/
structure LinkRecord where
  name : String
  status : LinkStatus
deriving DecidableEq, Repr

/-- Modelled from the spec: the Orchestrator chain primitive (section
4.5), implemented by the external task-queue library and used at
orders/tasks.py lines 95-98 and reports/tasks.py lines 116-119. Each link
is a named handler on a shared state returning success or terminal
failure; a link is enqueued and run only after the previous link
completed, and a terminally failed link halts the chain, so later links
never get a record. -/
def runChain (σ : Type) : List (String × (σ → σ × Bool)) → σ → σ × List LinkRecord
  | [], s => (s, [])
  | (nm, h) :: rest, s =>
    match h s with
    | (s1, true) =>
      match runChain σ rest s1 with
      | (s2, recs) => (s2, ⟨nm, .completed⟩ :: recs)
    | (s1, false) => (s1, [⟨nm, .failed⟩])

/- ## Concrete example states -/

/-- A product with five units in stock. -/
def demoProduct : Product :=
  { pid := 7, name := "Widget", sku := "SKU-7", stock_quantity := 5, sales_count := 0 }

/-- A pending order for two units of the demo product. -/
def demoOrder : Order :=
  { oid := 1, order_number := "ORD-1", status := .pending,
    items := [{ productId := 7, quantity := 2 }] }

/-- A state holding the demo order and product. -/
def demoOrdersState : OrdersState :=
  { orders := [demoOrder], products := [demoProduct], history := [], queuedChains := [] }

/-- A state whose only order has already been shipped. -/
def shippedOrderState : OrdersState :=
  { orders := [{ oid := 2, order_number := "ORD-2", status := .shipped,
                 items := [{ productId := 7, quantity := 1 }] }],
    products := [demoProduct], history := [], queuedChains := [] }

/-- A state with no order records at all. -/
def emptyOrdersState : OrdersState :=
  { orders := [], products := [], history := [], queuedChains := [] }

/-- A state whose pending order asks for more units than are in stock. -/
def overdrawnOrdersState : OrdersState :=
  { orders := [{ oid := 3, order_number := "ORD-3", status := .pending,
                 items := [{ productId := 7, quantity := 99 }] }],
    products := [demoProduct], history := [], queuedChains := [] }

/-- Two line items for the same product, each individually within the
stock of five; nothing in the schema or serializer forbids this. -/
def duplicateOrderItems : List OrderItem :=
  [{ productId := 7, quantity := 2 }, { productId := 7, quantity := 2 }]

/-- A state whose pending order holds the duplicate-product line items. -/
def duplicateItemsState : OrdersState :=
  { orders := [{ oid := 4, order_number := "ORD-4", status := .pending,
                 items := duplicateOrderItems }],
    products := [demoProduct], history := [], queuedChains := [] }

/-- A blank report record with a small date range. -/
def baseReport : Report :=
  { status := .pending, parameters := { start_date := 0, end_date := 2 },
    celery_task_id := none, progress := 0, progress_message := "",
    result_data := none, result_file := none, error_message := "",
    retry_count := 0, started_at := none, completed_at := none, expires_at := none }

/-- Wrap a report record into a state with a queued task message. -/
def mkReportState (r : Report) (db : List BusinessOrder) : ReportState :=
  { report := r, orders_db := db, progress_writes := [], queued_chains := [],
    queued_task := true, revoked := false, handler_runs := 0 }

/-- A freshly created pending report over an empty order table. -/
def freshPendingReport : ReportState :=
  create_report { start_date := 0, end_date := 2 } []

/-- A report already cancelled, whose queue message was never revoked
(its celery_task_id was still blank when it was cancelled). -/
def cancelledStuckReport : ReportState :=
  mkReportState { baseReport with status := .cancelled } []

/-- A report record after a failed attempt that had reached progress 90:
status failed, one retry recorded, progress left at 90; the write log is
empty so the writes of the next attempt are observed on their own. -/
def staleProgressReport : ReportState :=
  mkReportState
    { baseReport with
      status := .failed
      progress := 90
      error_message := "boom"
      retry_count := 1 }
    []

/-- A report that has already completed. -/
def completedReportState : ReportState :=
  mkReportState { baseReport with status := .completed } []

/-- A report that has terminally failed. -/
def failedReportState : ReportState :=
  mkReportState { baseReport with status := .failed, error_message := "boom" } []

/-- One business order inside the demo date range. -/
def inRangeOrder : BusinessOrder :=
  { order_number := "X", created_at := 1, user_email := "u", total := 1,
    status := "pending", is_deleted := false }

/-- A sales-report state over 1001 orders, all inside the date range. -/
def bigSalesState : ReportState :=
  mkReportState baseReport (List.replicate 1001 inRangeOrder)

/- ## Lemmas about the order-processing task -/

/-- A product referenced by no line item has total ordered quantity 0. -/
theorem orderedQty_eq_zero (items : List OrderItem) (productId : Nat)
    (h : ∀ x ∈ items, x.productId ≠ productId) : orderedQty items productId = 0 := by
  have hfil : List.filter (fun it => it.productId == productId) items = [] :=
    List.filter_eq_nil_iff.mpr (fun a ha hbeq => h a ha (eq_of_beq hbeq))
  unfold orderedQty
  rw [hfil]
  rfl

/-- Under pairwise distinct line-item products, the item found for a
product is the only one referencing it, so the total ordered quantity is
exactly its quantity. -/
theorem orderedQty_eq_of_find (items : List OrderItem) (productId : Nat)
    (it0 : OrderItem) (hnd : (items.map (fun x => x.productId)).Nodup)
    (hf : items.find? (fun x => x.productId == productId) = some it0) :
    orderedQty items productId = it0.quantity := by
  induction items with
  | nil => simp at hf
  | cons a rest ih =>
    rw [List.map_cons, List.nodup_cons] at hnd
    obtain ⟨hni, hrest⟩ := hnd
    by_cases ha : a.productId = productId
    · rw [@List.find?_cons_of_pos _ (fun x => x.productId == productId) a rest
        (beq_iff_eq.mpr ha)] at hf
      have h0 : a = it0 := Option.some.inj hf
      subst h0
      have hzero : orderedQty rest productId = 0 :=
        orderedQty_eq_zero rest productId (fun x hx he =>
          hni (List.mem_map.mpr ⟨x, hx, he.trans ha.symm⟩))
      unfold orderedQty at hzero ⊢
      rw [@List.filter_cons_of_pos _ (fun x => x.productId == productId) a rest
        (beq_iff_eq.mpr ha), List.map_cons, List.sum_cons, hzero, add_zero]
    · rw [@List.find?_cons_of_neg _ (fun x => x.productId == productId) a rest
        (fun hbeq => ha (eq_of_beq hbeq))] at hf
      have hres := ih hrest hf
      unfold orderedQty at hres ⊢
      rw [@List.filter_cons_of_neg _ (fun x => x.productId == productId) a rest
        (fun hbeq => ha (eq_of_beq hbeq))]
      exact hres

/-- Under a duplicate-free product table (the primary-key constraint), a
lookup by the pid of a row returns that row. -/
theorem find?_pid_self (l : List Product) (hnd : (l.map (fun r => r.pid)).Nodup)
    (p : Product) (hp : p ∈ l) : l.find? (fun r => r.pid == p.pid) = some p := by
  induction l with
  | nil => simp at hp
  | cons a rest ih =>
    rw [List.map_cons, List.nodup_cons] at hnd
    rcases List.mem_cons.mp hp with rfl | hmem
    · exact @List.find?_cons_of_pos _ (fun r => r.pid == p.pid) p rest
        (beq_iff_eq.mpr rfl)
    · rw [@List.find?_cons_of_neg _ (fun r => r.pid == p.pid) a rest
        (fun hbeq => hnd.1 (by
          rw [eq_of_beq hbeq]
          exact List.mem_map.mpr ⟨p, hmem, rfl⟩))]
      exact ih hnd.2 hmem

/-- If every line item finds its product and none is short of stock, the
validation loop raises nothing. -/
theorem stockValidationError_eq_none (s : OrdersState) (items : List OrderItem)
    (hsome : ∀ it ∈ items, (findProduct s it.productId).isSome)
    (hsuff : ∀ it ∈ items, ∀ p, findProduct s it.productId = some p →
      it.quantity ≤ p.stock_quantity) :
    stockValidationError s items = none := by
  induction items with
  | nil => rfl
  | cons it rest ih =>
    have h1 : (findProduct s it.productId).isSome := hsome it (by simp)
    obtain ⟨p, hp⟩ := Option.isSome_iff_exists.mp h1
    have h2 : it.quantity ≤ p.stock_quantity := hsuff it (by simp) p hp
    simp only [stockValidationError, hp]
    rw [if_neg (by omega)]
    exact ih (fun x hx => hsome x (by simp [hx])) (fun x hx => hsuff x (by simp [hx]))

/-- If some line item finds its product short of stock, the validation
loop raises. -/
theorem stockValidationError_isSome (s : OrdersState) (items : List OrderItem)
    (hbad : ∃ it ∈ items, ∃ p, findProduct s it.productId = some p ∧
      p.stock_quantity < it.quantity) :
    ∃ msg, stockValidationError s items = some msg := by
  induction items with
  | nil => simp at hbad
  | cons it rest ih =>
    cases hfp : findProduct s it.productId with
    | none =>
      refine ⟨"Product matching query does not exist.", ?_⟩
      simp only [stockValidationError, hfp]
    | some p =>
      by_cases hlt : p.stock_quantity < it.quantity
      · refine ⟨"Insufficient stock for " ++ p.name, ?_⟩
        simp only [stockValidationError, hfp]
        rw [if_pos hlt]
      · have hrec : stockValidationError s (it :: rest) = stockValidationError s rest := by
          simp only [stockValidationError, hfp]
          rw [if_neg hlt]
        rw [hrec]
        apply ih
        obtain ⟨x, hx, q, hq, hqlt⟩ := hbad
        rcases List.mem_cons.mp hx with hhead | htail
        · subst hhead
          rw [hfp] at hq
          cases hq
          exact absurd hqlt hlt
        · exact ⟨x, htail, q, hq, hqlt⟩

/-- Characterization of the inventory-update loop when the line items
reference pairwise distinct products: every table row referenced by a
line item ends at the snapshot values of its product written once from
that single item; unreferenced rows are untouched. (For duplicate-product
line items the loop instead clobbers the row with the values derived
from the last such item — the read-modify-write lost update.) -/
theorem decrementStock_clobber (snap : List Product) :
    ∀ (items : List OrderItem) (acc : List Product),
      (items.map (fun it => it.productId)).Nodup →
      items.foldl (applyItemDecrement snap) acc =
        acc.map (fun dbp =>
          match items.find? (fun it => it.productId == dbp.pid) with
          | none => dbp
          | some it =>
            match snap.find? (fun p => p.pid == it.productId) with
            | none => dbp
            | some p =>
              { dbp with stock_quantity := p.stock_quantity - it.quantity,
                         sales_count := p.sales_count + it.quantity }) := by
  intro items
  induction items with
  | nil =>
    intro acc _
    exact (List.map_id acc).symm
  | cons it rest ih =>
    intro acc hnd
    rw [List.map_cons, List.nodup_cons] at hnd
    obtain ⟨hni, hrest⟩ := hnd
    have hnone_rest : ∀ q : Nat, q = it.productId →
        rest.find? (fun x => x.productId == q) = none := by
      intro q hq
      rw [List.find?_eq_none]
      intro x hx hbeq
      exact hni (List.mem_map.mpr ⟨x, hx, (eq_of_beq hbeq).trans hq⟩)
    rw [List.foldl_cons]
    cases hsp : snap.find? (fun p => p.pid == it.productId) with
    | none =>
      have happ : applyItemDecrement snap acc it = acc := by
        simp only [applyItemDecrement, hsp]
      rw [happ, ih acc hrest]
      congr 1
      funext dbp
      by_cases hd : it.productId = dbp.pid
      · rw [@List.find?_cons_of_pos _ (fun x => x.productId == dbp.pid) it rest
          (beq_iff_eq.mpr hd), hnone_rest dbp.pid hd.symm]
        simp [hsp]
      · rw [@List.find?_cons_of_neg _ (fun x => x.productId == dbp.pid) it rest
          (fun hbeq => hd (eq_of_beq hbeq))]
    | some p =>
      have happ : applyItemDecrement snap acc it =
          acc.map (fun dbp =>
            if dbp.pid == it.productId then
              { dbp with stock_quantity := p.stock_quantity - it.quantity,
                         sales_count := p.sales_count + it.quantity }
            else dbp) := by
        simp only [applyItemDecrement, hsp]
      rw [happ, ih _ hrest, List.map_map]
      congr 1
      funext dbp
      simp only [Function.comp]
      by_cases hd : dbp.pid = it.productId
      · rw [if_pos (beq_iff_eq.mpr hd)]
        dsimp only
        rw [hnone_rest dbp.pid hd,
          @List.find?_cons_of_pos _ (fun x => x.productId == dbp.pid) it rest
            (beq_iff_eq.mpr hd.symm)]
        simp [hsp]
      · rw [if_neg (fun hbeq => hd (eq_of_beq hbeq)),
          @List.find?_cons_of_neg _ (fun x => x.productId == dbp.pid) it rest
            (fun hbeq => hd (eq_of_beq hbeq).symm)]

/- ## Lemmas about the worker retry loop -/

/-- One generate_report execution under a generator that always throws
(and, like every generator in the source, does not itself touch
retry_count): the record is left failed with the error message persisted
and retry_count bumped by one, and the exception propagates. -/
theorem generate_report_attempt_error (gen : Generator) (taskId : String) (now : Nat)
    (st : ReportState)
    (hfail : ∀ s, (gen s).1.report.retry_count = s.report.retry_count ∧
      ∃ e, (gen s).2 = Except.error e) :
    ∃ st1 e, generate_report_attempt gen taskId now st = (st1, Except.error e) ∧
      st1.report.status = .failed ∧
      st1.report.error_message = e ∧
      st1.report.retry_count = st.report.retry_count + 1 := by
  obtain ⟨hrc, e, he⟩ := hfail (attempt_setup taskId now st)
  cases hg : gen (attempt_setup taskId now st) with
  | mk st3 r =>
    rw [hg] at hrc he
    dsimp only at hrc he
    subst he
    refine ⟨{ st3 with report := { st3.report with
                                   status := .failed,
                                   error_message := e,
                                   retry_count := st3.report.retry_count + 1 } },
            e, ?_, rfl, rfl, ?_⟩
    · simp only [generate_report_attempt]
      rw [hg]
    · show st3.report.retry_count + 1 = st.report.retry_count + 1
      rw [hrc]
      rfl

/-- The retry loop under an always-throwing generator: with a budget of
`fuel` retries it executes the body fuel + 1 times, waits the fixed
countdown before each retry, and leaves the record failed with one
retry_count increment per execution and the last error persisted. -/
theorem runAttempts_always_failing (gen : Generator) (taskId : String) (now : Nat)
    (countdown : Nat)
    (hfail : ∀ s, (gen s).1.report.retry_count = s.report.retry_count ∧
      ∃ e, (gen s).2 = Except.error e) :
    ∀ (fuel : Nat) (st : ReportState),
      (runAttempts (generate_report_attempt gen taskId now) countdown fuel st).executions = fuel + 1 ∧
      (runAttempts (generate_report_attempt gen taskId now) countdown fuel st).delays =
        List.replicate fuel countdown ∧
      (runAttempts (generate_report_attempt gen taskId now) countdown fuel st).finalState.report.status = .failed ∧
      (runAttempts (generate_report_attempt gen taskId now) countdown fuel st).finalState.report.retry_count =
        st.report.retry_count + (fuel + 1) ∧
      ∃ e, (runAttempts (generate_report_attempt gen taskId now) countdown fuel st).outcome = Except.error e ∧
        (runAttempts (generate_report_attempt gen taskId now) countdown fuel st).finalState.report.error_message = e := by
  intro fuel
  induction fuel with
  | zero =>
    intro st
    obtain ⟨st1, e, heq, hstat, herr, hrc⟩ :=
      generate_report_attempt_error gen taskId now st hfail
    simp only [runAttempts]
    rw [heq]
    dsimp only
    exact ⟨rfl, rfl, hstat, by rw [hrc], e, rfl, herr⟩
  | succ fuel1 ih =>
    intro st
    obtain ⟨st1, e, heq, hstat, herr, hrc⟩ :=
      generate_report_attempt_error gen taskId now st hfail
    obtain ⟨ihe, ihd, ihs, ihr, e2, iho, ihm⟩ := ih st1
    simp only [runAttempts]
    rw [heq]
    dsimp only
    refine ⟨by rw [ihe], ?_, ihs, ?_, e2, iho, ihm⟩
    · rw [ihd, List.replicate_succ]
    · rw [ihr, hrc]
      omega

/-- An attempt that raises without changing the state (such as
process_order on an order with insufficient stock) is retried fuel
times, each after the same fixed countdown, and then fails. -/
theorem runAttempts_const_error {σ ε α : Type} (attempt : σ → σ × Except ε α)
    (countdown : Nat) (s : σ) (e : ε) (h : attempt s = (s, Except.error e)) :
    ∀ fuel, runAttempts attempt countdown fuel s =
      ⟨s, fuel + 1, List.replicate fuel countdown, Except.error e⟩ := by
  intro fuel
  induction fuel with
  | zero =>
    simp only [runAttempts]
    rw [h]
    exact rfl
  | succ fuel1 ih =>
    simp only [runAttempts]
    rw [h]
    dsimp only
    rw [ih]
    exact rfl

/-- An attempt that returns normally completes the job on the first
execution: no retries, no delays. -/
theorem runAttempts_ok {σ ε α : Type} (attempt : σ → σ × Except ε α)
    (countdown : Nat) (s s1 : σ) (a : α) (h : attempt s = (s1, Except.ok a)) :
    ∀ fuel, runAttempts attempt countdown fuel s = ⟨s1, 1, [], Except.ok a⟩ := by
  intro fuel
  cases fuel with
  | zero =>
    simp only [runAttempts]
    rw [h]
  | succ fuel1 =>
    simp only [runAttempts]
    rw [h]

/- ## Claim theorems: order processing -/

/-- Claim C1: invoking the order-processing job on an order whose status
is already processing, shipped or delivered is a no-op: it returns a
skipped result and leaves every business record (orders, products,
audit trail, queue) unchanged. -/
theorem process_order_already_processed_noop (s : OrdersState) (orderId : Nat)
    (order : Order) (hfind : findOrder s orderId = some order)
    (hstatus : order.status ∈ alreadyProcessedStatuses) :
    process_order orderId s = (s, .ok (.skipped "Order already processed")) := by
  unfold process_order
  rw [hfind]
  simp [hstatus]

/-- Witness for C1: the shipped demo order is skipped untouched. -/
theorem process_order_already_processed_noop_instance :
    process_order 2 shippedOrderState =
      (shippedOrderState, .ok (.skipped "Order already processed")) :=
  process_order_already_processed_noop shippedOrderState 2
    { oid := 2, order_number := "ORD-2", status := .shipped,
      items := [{ productId := 7, quantity := 1 }] } (by decide) (by decide)

/-- Claim C10: invoking the order-processing job with an unknown order id
returns an error dictionary without raising, so the worker records one
successful execution: no retry is scheduled and no record is touched. -/
theorem process_order_missing_order_no_retry (s : OrdersState) (orderId : Nat)
    (hfind : findOrder s orderId = none) :
    process_order orderId s = (s, .ok (.errorResult "Order not found")) ∧
    runWithRetries process_order_max_retries process_order_countdown
        (process_order orderId) s =
      ⟨s, 1, [], .ok (.errorResult "Order not found")⟩ := by
  have h1 : process_order orderId s = (s, .ok (.errorResult "Order not found")) := by
    unfold process_order
    rw [hfind]
  refine ⟨h1, ?_⟩
  simp only [runWithRetries]
  rw [runAttempts_ok (process_order orderId) process_order_countdown s s
    (.errorResult "Order not found") h1 process_order_max_retries]

/-- Witness for C10: under an empty order table, order id 1 yields the
error dictionary and a single execution with no retries. -/
theorem process_order_missing_order_no_retry_instance :
    process_order 1 emptyOrdersState =
      (emptyOrdersState, .ok (.errorResult "Order not found")) ∧
    runWithRetries process_order_max_retries process_order_countdown
        (process_order 1) emptyOrdersState =
      ⟨emptyOrdersState, 1, [], .ok (.errorResult "Order not found")⟩ :=
  process_order_missing_order_no_retry emptyOrdersState 1 (by decide)

/-- Counterexample to claim C2 as stated: an order with two line items
for the same product (quantity 2 each, stock 5) passes validation — each
item is individually sufficient — and the job succeeds, but the product
ends at stock 3, not 5 minus the total ordered quantity 4: the second
save of the inventory loop, computed from the same pre-loop query
snapshot, clobbers the first. -/
theorem duplicate_items_clobber_decrement :
    (process_order 4 duplicateItemsState).2 =
      Except.ok (TaskOutcome.success 4 "ORD-4") ∧
    (process_order 4 duplicateItemsState).1.products.map
      (fun p => p.stock_quantity) = [3] ∧
    orderedQty duplicateOrderItems 7 = 4 ∧
    ¬ (3 : Int) = 5 - orderedQty duplicateOrderItems 7 := by
  exact ⟨rfl, by decide, by decide, by decide⟩

/-- Claim C2 as amended: for an order that exists, is not yet processed,
and whose line items all reference existing products in a duplicate-free
product table: if some line item asks for more than its product has in
stock, the whole job raises and no record changes (no partial
fulfillment); if every line item is covered and the line items reference
pairwise distinct products, every product is decremented by exactly its
total ordered quantity, the order moves to processing, one audit row is
appended, and the confirmation/warehouse notification chain is enqueued.
(With duplicate-product line items, the read-modify-write saves of the
inventory loop clobber each other: the product keeps only the last
decrement.) -/
theorem process_order_stock_all_or_nothing (s : OrdersState) (orderId : Nat)
    (order : Order) (hfind : findOrder s orderId = some order)
    (hstatus : order.status ∉ alreadyProcessedStatuses)
    (hsome : ∀ it ∈ order.items, (findProduct s it.productId).isSome)
    (hitems : (order.items.map (fun it => it.productId)).Nodup)
    (hprods : (s.products.map (fun p => p.pid)).Nodup) :
    ((∃ it ∈ order.items, ∃ p, findProduct s it.productId = some p ∧
        p.stock_quantity < it.quantity) →
      ∃ msg, process_order orderId s = (s, .error msg)) ∧
    ((∀ it ∈ order.items, ∀ p, findProduct s it.productId = some p →
        it.quantity ≤ p.stock_quantity) →
      process_order orderId s =
        ({ orders := s.orders.map (fun o =>
             if o.oid == orderId then { o with status := .processing } else o),
           products := s.products.map (fun p =>
             { p with stock_quantity := p.stock_quantity - orderedQty order.items p.pid,
                      sales_count := p.sales_count + orderedQty order.items p.pid }),
           history := s.history ++ [⟨orderId, .processing, "Order processing started"⟩],
           queuedChains := s.queuedChains ++
             [[("send_order_confirmation", orderId), ("notify_warehouse", orderId)]] },
         .ok (.success orderId order.order_number))) := by
  constructor
  · intro hbad
    obtain ⟨msg, hmsg⟩ := stockValidationError_isSome s order.items hbad
    refine ⟨msg, ?_⟩
    simp only [process_order, hfind]
    rw [if_neg hstatus, hmsg]
  · intro hsuff
    have hnone := stockValidationError_eq_none s order.items hsome hsuff
    have hdec : decrementStock s.products order.items =
        s.products.map (fun p =>
          { p with stock_quantity := p.stock_quantity - orderedQty order.items p.pid,
                   sales_count := p.sales_count + orderedQty order.items p.pid }) := by
      rw [show decrementStock s.products order.items =
            order.items.foldl (applyItemDecrement s.products) s.products from rfl]
      rw [decrementStock_clobber s.products order.items s.products hitems]
      apply List.map_congr_left
      intro p hp
      cases hf : order.items.find? (fun it => it.productId == p.pid) with
      | none =>
        have hq : orderedQty order.items p.pid = 0 :=
          orderedQty_eq_zero order.items p.pid (fun x hx he =>
            List.find?_eq_none.mp hf x hx (beq_iff_eq.mpr he))
        rw [hq]
        simp
      | some it =>
        have hbeq : (it.productId == p.pid) = true :=
          @List.find?_some _ (fun x => x.productId == p.pid) it order.items hf
        have hpid : it.productId = p.pid := eq_of_beq hbeq
        have hsnap : s.products.find? (fun r => r.pid == it.productId) = some p := by
          rw [hpid]
          exact find?_pid_self s.products hprods p hp
        have hq : orderedQty order.items p.pid = it.quantity :=
          orderedQty_eq_of_find order.items p.pid it hitems hf
        dsimp only
        rw [hsnap, hq]
    simp only [process_order, hfind]
    rw [if_neg hstatus, hnone, hdec]

/-- Witness for C2 (amended): the demo order (one line item, two units
against a stock of five) fulfills: stock decremented by the ordered
quantity, status updated, audit row and chain added. -/
theorem process_order_stock_all_or_nothing_instance :
    process_order 1 demoOrdersState =
      ({ orders := demoOrdersState.orders.map (fun o =>
           if o.oid == 1 then { o with status := .processing } else o),
         products := demoOrdersState.products.map (fun p =>
           { p with stock_quantity := p.stock_quantity - orderedQty demoOrder.items p.pid,
                    sales_count := p.sales_count + orderedQty demoOrder.items p.pid }),
         history := demoOrdersState.history ++
           [⟨1, .processing, "Order processing started"⟩],
         queuedChains := demoOrdersState.queuedChains ++
           [[("send_order_confirmation", 1), ("notify_warehouse", 1)]] },
       .ok (.success 1 demoOrder.order_number)) :=
  (process_order_stock_all_or_nothing demoOrdersState 1 demoOrder
    (by decide) (by decide) (by decide) (by decide) (by decide)).2 (by decide)

/- ## Claim theorems: retries -/

/-- Counterexample to claim C3 as stated: running generate_report with a
handler that throws on every attempt leaves the persisted retry_count at
4, not at max_retries = 3, because every failed execution (the initial
one included) increments it. -/
theorem generate_report_retry_count_exceeds_max :
    (runWithRetries generate_report_max_retries generate_report_countdown
        (generate_report_attempt (failing_generator "boom") "t" 0)
        freshPendingReport).finalState.report.retry_count = 4 ∧
    ¬ (runWithRetries generate_report_max_retries generate_report_countdown
        (generate_report_attempt (failing_generator "boom") "t" 0)
        freshPendingReport).finalState.report.retry_count = generate_report_max_retries := by
  decide

/-- Claim C3 as amended: a generate_report handler that always throws a
transient error is executed max_retries + 1 times in total (the initial
attempt plus exactly max_retries = 3 retries) and the job then lands in
failed; the persisted retry_count counts every failed execution, so it
ends at max_retries + 1, exceeding the configured maximum by one. -/
theorem generate_report_retry_exhaustion (gen : Generator) (taskId : String)
    (now : Nat) (st : ReportState)
    (hfail : ∀ s, (gen s).1.report.retry_count = s.report.retry_count ∧
      ∃ e, (gen s).2 = Except.error e)
    (hzero : st.report.retry_count = 0) :
    (runWithRetries generate_report_max_retries generate_report_countdown
        (generate_report_attempt gen taskId now) st).executions =
      generate_report_max_retries + 1 ∧
    (runWithRetries generate_report_max_retries generate_report_countdown
        (generate_report_attempt gen taskId now) st).finalState.report.status = .failed ∧
    (runWithRetries generate_report_max_retries generate_report_countdown
        (generate_report_attempt gen taskId now) st).finalState.report.retry_count =
      generate_report_max_retries + 1 := by
  obtain ⟨he, hd, hs, hr, _⟩ :=
    runAttempts_always_failing gen taskId now generate_report_countdown hfail
      generate_report_max_retries st
  simp only [runWithRetries]
  exact ⟨he, hs, by rw [hr, hzero]; omega⟩

/-- Witness for C3 (amended): the always-throwing generator on a fresh
report runs 4 times and ends failed with retry_count 4. -/
theorem generate_report_retry_exhaustion_instance :
    (runWithRetries generate_report_max_retries generate_report_countdown
        (generate_report_attempt (failing_generator "boom") "t" 0)
        freshPendingReport).executions = generate_report_max_retries + 1 ∧
    (runWithRetries generate_report_max_retries generate_report_countdown
        (generate_report_attempt (failing_generator "boom") "t" 0)
        freshPendingReport).finalState.report.status = .failed ∧
    (runWithRetries generate_report_max_retries generate_report_countdown
        (generate_report_attempt (failing_generator "boom") "t" 0)
        freshPendingReport).finalState.report.retry_count =
      generate_report_max_retries + 1 :=
  generate_report_retry_exhaustion (failing_generator "boom") "t" 0
    freshPendingReport (fun _ => ⟨rfl, "boom", rfl⟩) rfl

/-- Counterexample to claim C7 as stated: the re-enqueue delays of
generate_report are the fixed countdown 60 on every attempt; in
particular the delay before the second retry is 60, not the
base delay times 2 to the attempt number (which would be 120). -/
theorem retry_delay_not_exponential :
    (runWithRetries generate_report_max_retries generate_report_countdown
        (generate_report_attempt (failing_generator "boom") "t" 0)
        freshPendingReport).delays.get? 1 = some generate_report_countdown ∧
    ¬ (runWithRetries generate_report_max_retries generate_report_countdown
        (generate_report_attempt (failing_generator "boom") "t" 0)
        freshPendingReport).delays.get? 1 =
      some (generate_report_countdown * 2 ^ 1) := by
  decide

/-- Claim C7 as amended: on handler failure below the retry budget the
job is re-enqueued after a fixed per-task countdown (60 seconds for
generate_report, 5 seconds for process_order), not an exponentially
growing one; once the budget is exhausted the job is failed with the
error message persisted and no further executions happen. -/
theorem retry_delay_constant (gen : Generator) (taskId : String) (now : Nat)
    (st : ReportState)
    (hfail : ∀ s, (gen s).1.report.retry_count = s.report.retry_count ∧
      ∃ e, (gen s).2 = Except.error e) :
    (runWithRetries generate_report_max_retries generate_report_countdown
        (generate_report_attempt gen taskId now) st).delays =
      List.replicate generate_report_max_retries generate_report_countdown ∧
    (runWithRetries generate_report_max_retries generate_report_countdown
        (generate_report_attempt gen taskId now) st).finalState.report.status = .failed ∧
    (∃ e, (runWithRetries generate_report_max_retries generate_report_countdown
        (generate_report_attempt gen taskId now) st).outcome = Except.error e ∧
      (runWithRetries generate_report_max_retries generate_report_countdown
        (generate_report_attempt gen taskId now) st).finalState.report.error_message = e) ∧
    (runWithRetries generate_report_max_retries generate_report_countdown
        (generate_report_attempt gen taskId now) st).executions =
      generate_report_max_retries + 1 ∧
    (∀ (os : OrdersState) (orderId : Nat) (e : String),
      process_order orderId os = (os, Except.error e) →
      (runWithRetries process_order_max_retries process_order_countdown
          (process_order orderId) os).delays =
        List.replicate process_order_max_retries process_order_countdown) := by
  obtain ⟨he, hd, hs, hr, e2, ho, hm⟩ :=
    runAttempts_always_failing gen taskId now generate_report_countdown hfail
      generate_report_max_retries st
  simp only [runWithRetries]
  refine ⟨hd, hs, ⟨e2, ho, hm⟩, he, ?_⟩
  intro os orderId e hpo
  rw [runAttempts_const_error (process_order orderId) process_order_countdown os e hpo
    process_order_max_retries]

/-- Witness for C7 (amended): the failing report job waits 60 seconds
before each of its three retries, and the overdrawn demo order waits 5
seconds before each of its three retries. -/
theorem retry_delay_constant_instance :
    (runWithRetries generate_report_max_retries generate_report_countdown
        (generate_report_attempt (failing_generator "boom") "t" 0)
        freshPendingReport).delays =
      List.replicate generate_report_max_retries generate_report_countdown ∧
    (runWithRetries process_order_max_retries process_order_countdown
        (process_order 3) overdrawnOrdersState).delays =
      List.replicate process_order_max_retries process_order_countdown := by
  have h := retry_delay_constant (failing_generator "boom") "t" 0 freshPendingReport
    (fun _ => ⟨rfl, "boom", rfl⟩)
  exact ⟨h.1, h.2.2.2.2 overdrawnOrdersState 3 "Insufficient stock for Widget" rfl⟩

/- ## Claim theorems: status transitions and cancellation -/

/-- Counterexample to claim C5 as stated: the worker execution path has
no status guard, so delivering the generate_report task for a report
already in the terminal status cancelled moves it back to processing and
then to completed — a transition out of a terminal state that is not the
failed-to-pending manual retry. -/
theorem worker_escapes_terminal_status :
    cancelledStuckReport.report.status = .cancelled ∧
    (worker_step generate_sales_report "t" 0 cancelledStuckReport).report.status =
      .completed := by
  decide

/-- Claim C5 as amended: the guarded mutation paths are monotonic — the
cancel endpoint succeeds only from pending or processing and yields
cancelled, rejecting terminal-status reports unchanged, and the manual
retry action only moves failed to pending — but the worker execution
path is unguarded: it marks the record processing regardless of its
current status (terminal ones included) and always ends the attempt in
completed or failed. -/
theorem status_transition_guards :
    (∀ st : ReportState, (cancel_report st).2 = CancelResponse.cancelled →
      (st.report.status = .pending ∨ st.report.status = .processing) ∧
      (cancel_report st).1.report.status = .cancelled) ∧
    (∀ st : ReportState,
      ¬(st.report.status = .pending ∨ st.report.status = .processing) →
      cancel_report st = (st, .badRequest
        ("Cannot cancel report with status: " ++ statusText st.report.status))) ∧
    (∀ st : ReportState, st.report.status = .failed →
      (retry_failed_report st).report.status = .pending) ∧
    (∀ st : ReportState, st.report.status ≠ .failed → retry_failed_report st = st) ∧
    (∀ (gen : Generator) (taskId : String) (now : Nat) (st : ReportState),
      (generate_report_attempt gen taskId now st).1.report.status = .completed ∨
      (generate_report_attempt gen taskId now st).1.report.status = .failed) := by
  refine ⟨?_, ?_, ?_, ?_, ?_⟩
  · intro st h
    by_cases hc : st.report.status = .pending ∨ st.report.status = .processing
    · refine ⟨hc, ?_⟩
      unfold cancel_report
      rw [if_pos hc]
    · unfold cancel_report at h
      rw [if_neg hc] at h
      simp at h
  · intro st h
    unfold cancel_report
    rw [if_neg h]
  · intro st h
    unfold retry_failed_report
    rw [if_pos h]
  · intro st h
    unfold retry_failed_report
    rw [if_neg h]
  · intro gen taskId now st
    simp only [generate_report_attempt]
    cases hg : gen (attempt_setup taskId now st) with
    | mk st3 r =>
      cases r with
      | ok res => exact Or.inl rfl
      | error e => exact Or.inr rfl

/-- Witness for C5 (amended): cancelling a fresh pending report lands it
in cancelled, and the retry action leaves a completed report alone. -/
theorem status_transition_guards_instance :
    (cancel_report freshPendingReport).1.report.status = .cancelled ∧
    retry_failed_report completedReportState = completedReportState :=
  ⟨(status_transition_guards.1 freshPendingReport (by decide)).2,
   status_transition_guards.2.2.2.1 completedReportState (by decide)⟩

/-- Counterexample to claim C9 as stated: cancelling a freshly created
pending report succeeds and marks it cancelled, but because a pending
report has no persisted celery_task_id, the endpoint revokes nothing;
the already-queued message is later delivered, the handler body runs
once, and the job even ends completed. -/
theorem cancel_pending_handler_still_runs :
    (cancel_report freshPendingReport).2 = CancelResponse.cancelled ∧
    (cancel_report freshPendingReport).1.report.status = .cancelled ∧
    (cancel_report freshPendingReport).1.revoked = false ∧
    (worker_step generate_sales_report "t" 0
      (cancel_report freshPendingReport).1).handler_runs = 1 ∧
    (worker_step generate_sales_report "t" 0
      (cancel_report freshPendingReport).1).report.status = .completed := by
  decide

/-- Claim C9 as amended: a cancel request succeeds exactly when the
status is still pending or processing; cancelling a pending report marks
it cancelled immediately and a terminal-status cancel is rejected with
an error leaving the record unchanged; but for a freshly created pending
report no revocation is issued (its task id was never persisted), so the
queued handler is still invoked later. -/
theorem cancel_guard :
    (∀ st : ReportState, (cancel_report st).2 = CancelResponse.cancelled ↔
      (st.report.status = .pending ∨ st.report.status = .processing)) ∧
    (∀ st : ReportState, st.report.status = .pending →
      (cancel_report st).1.report.status = .cancelled) ∧
    (∀ st : ReportState,
      ¬(st.report.status = .pending ∨ st.report.status = .processing) →
      cancel_report st = (st, .badRequest
        ("Cannot cancel report with status: " ++ statusText st.report.status))) ∧
    (∀ (params : ReportParameters) (db : List BusinessOrder) (taskId : String) (now : Nat),
      (cancel_report (create_report params db)).1.report.status = .cancelled ∧
      (cancel_report (create_report params db)).1.revoked = false ∧
      (worker_step generate_sales_report taskId now
        (cancel_report (create_report params db)).1).handler_runs = 1) := by
  refine ⟨?_, ?_, ?_, ?_⟩
  · intro st
    constructor
    · intro h
      by_cases hc : st.report.status = .pending ∨ st.report.status = .processing
      · exact hc
      · unfold cancel_report at h
        rw [if_neg hc] at h
        simp at h
    · intro hc
      unfold cancel_report
      rw [if_pos hc]
  · intro st h
    unfold cancel_report
    rw [if_pos (Or.inl h)]
  · intro st h
    unfold cancel_report
    rw [if_neg h]
  · intro params db taskId now
    exact ⟨rfl, rfl, rfl⟩

/-- Witness for C9 (amended): a completed report cannot be cancelled and
is left unchanged; a fresh pending report is cancelled immediately. -/
theorem cancel_guard_instance :
    cancel_report completedReportState =
      (completedReportState, .badRequest
        ("Cannot cancel report with status: " ++
          statusText completedReportState.report.status)) ∧
    (cancel_report freshPendingReport).1.report.status = .cancelled :=
  ⟨cancel_guard.2.2.1 completedReportState (by decide),
   cancel_guard.2.1 freshPendingReport rfl⟩

/- ## Claim theorems: progress tracking -/

/-- Counterexample to claim C8 as stated: a fresh retry attempt does not
reset progress to 0 — starting a new attempt on a record whose previous
attempt died at progress 90, the first persisted progress write is 10
and the value 0 is never written. -/
theorem progress_not_reset_on_retry :
    staleProgressReport.report.progress = 90 ∧
    ((generate_report_attempt generate_sales_report "t" 0
      staleProgressReport).1).progress_writes.head? = some 10 ∧
    ¬ 0 ∈ ((generate_report_attempt generate_sales_report "t" 0
      staleProgressReport).1).progress_writes := by
  decide

/-- Claim C8 as amended: within a single execution attempt of the sales
report the persisted progress writes are exactly 10, 30, 50, 70, 90, 100
— a non-decreasing sequence — but a fresh retry attempt does not write 0:
its first persisted progress value is 10. -/
theorem progress_monotone (st : ReportState) (h : st.progress_writes = [])
    (taskId : String) (now : Nat) :
    ((generate_report_attempt generate_sales_report taskId now st).1).progress_writes =
      [10, 30, 50, 70, 90, 100] ∧
    List.Chain' (· ≤ ·)
      ((generate_report_attempt generate_sales_report taskId now st).1).progress_writes ∧
    ((generate_report_attempt generate_sales_report taskId now st).1).progress_writes.head? =
      some 10 ∧
    ¬ 0 ∈ ((generate_report_attempt generate_sales_report taskId now st).1).progress_writes := by
  have hw : ((generate_report_attempt generate_sales_report taskId now st).1).progress_writes =
      [10, 30, 50, 70, 90, 100] := by
    simp [generate_report_attempt, attempt_setup, generate_sales_report, writeProgress, h]
  rw [hw]
  refine ⟨rfl, ?_, rfl, ?_⟩
  · simp [List.chain'_cons, List.chain'_singleton]
  · decide

/-- Witness for C8 (amended): an attempt on a blank report writes the
milestone sequence. -/
theorem progress_monotone_instance :
    ((generate_report_attempt generate_sales_report "t" 0
      (mkReportState baseReport [])).1).progress_writes = [10, 30, 50, 70, 90, 100] :=
  (progress_monotone (mkReportState baseReport []) rfl "t" 0).1

/- ## Claim theorems: sales report content -/

/-- Counterexample to claim C6 as stated: over a range holding K = 1001
orders the summary reports total_orders = 1001 and the job completes,
but the CSV artifact has 1001 rows (header plus the first 1000 orders of
the sliced queryset), not K + 1 = 1002. -/
theorem sales_csv_truncated_at_1000 :
    (generate_report_attempt generate_sales_report "t" 0 bigSalesState).1.report.status =
      .completed ∧
    ((generate_report_attempt generate_sales_report "t" 0
        bigSalesState).1.report.result_data).map SalesSummary.total_orders = some 1001 ∧
    ((generate_report_attempt generate_sales_report "t" 0
        bigSalesState).1.report.result_file).map List.length = some 1001 ∧
    ¬ ((generate_report_attempt generate_sales_report "t" 0
        bigSalesState).1.report.result_file).map List.length = some (1001 + 1) := by
  set_option maxRecDepth 40000 in decide

/-- Claim C6 as amended: a sales report over a range holding K orders
completes with result_data.total_orders = K and total_revenue the sum of
the totals of those orders, enqueues the post-processing chain, and produces a
CSV artifact with min 1000 K + 1 rows — the header plus one row per
order up to the 1000-row slice (K + 1 rows only when K is at most
1000). -/
theorem sales_report_summary (st : ReportState) (taskId : String) (now : Nat) :
    (generate_report_attempt generate_sales_report taskId now st).1.report.status =
      .completed ∧
    (generate_report_attempt generate_sales_report taskId now st).1.report.result_data =
      some { total_orders := (ordersInRange st.orders_db st.report.parameters.start_date
               st.report.parameters.end_date).length,
             total_revenue := ((ordersInRange st.orders_db st.report.parameters.start_date
               st.report.parameters.end_date).map (fun o => o.total)).sum,
             average_order_value :=
               if (ordersInRange st.orders_db st.report.parameters.start_date
                    st.report.parameters.end_date).length = 0 then 0
               else ((ordersInRange st.orders_db st.report.parameters.start_date
                      st.report.parameters.end_date).map (fun o => o.total)).sum /
                 ((ordersInRange st.orders_db st.report.parameters.start_date
                    st.report.parameters.end_date).length : Rat),
             period := toString st.report.parameters.start_date ++ " to " ++
               toString st.report.parameters.end_date } ∧
    ((generate_report_attempt generate_sales_report taskId now st).1.report.result_file).map
        List.length =
      some (min 1000 (ordersInRange st.orders_db st.report.parameters.start_date
        st.report.parameters.end_date).length + 1) ∧
    (generate_report_attempt generate_sales_report taskId now st).1.queued_chains =
      st.queued_chains ++ [["post_process_report", "send_report_notification"]] := by
  refine ⟨rfl, rfl, ?_, rfl⟩
  simp [generate_report_attempt, attempt_setup, generate_sales_report, writeProgress,
    salesCsvRows]

/- ## Claim theorems: chain orchestration -/

/-- Claim C4: in a chain, a link has a record only if the previous link
recorded completed; a terminally failed link is the last one with a
record, so no downstream link of a failed link ever runs; in particular a
3-link chain whose second link fails terminally records completed for
link 1, failed for link 2, and nothing at all for link 3. -/
theorem chain_fail_fast (σ : Type) :
    (∀ (links : List (String × (σ → σ × Bool))) (s : σ) (i : Nat) (r1 : LinkRecord),
      ((runChain σ links s).2).get? (i + 1) = some r1 →
      ∃ r0, ((runChain σ links s).2).get? i = some r0 ∧ r0.status = .completed) ∧
    (∀ (links : List (String × (σ → σ × Bool))) (s : σ) (i : Nat) (r0 : LinkRecord),
      ((runChain σ links s).2).get? i = some r0 → r0.status = .failed →
      ((runChain σ links s).2).length = i + 1) ∧
    (∀ (n1 n2 n3 : String) (h1 h2 h3 : σ → σ × Bool) (s : σ),
      (∀ t, (h1 t).2 = true) → (∀ t, (h2 t).2 = false) →
      (runChain σ [(n1, h1), (n2, h2), (n3, h3)] s).2 =
        [⟨n1, .completed⟩, ⟨n2, .failed⟩]) := by
  refine ⟨?_, ?_, ?_⟩
  · intro links
    induction links with
    | nil =>
      intro s i r1 hget
      simp [runChain] at hget
    | cons link rest ih =>
      intro s i r1 hget
      obtain ⟨nm, h⟩ := link
      cases hh : h s with
      | mk s1 ok =>
        cases ok with
        | false =>
          simp only [runChain, hh] at hget
          simp at hget
        | true =>
          simp only [runChain, hh] at hget ⊢
          cases hrec : runChain σ rest s1 with
          | mk s2 recs =>
            rw [hrec] at hget
            dsimp only at hget
            cases i with
            | zero =>
              exact ⟨⟨nm, .completed⟩, rfl, rfl⟩
            | succ j =>
              have := ih s1 j r1 (by rw [hrec]; exact hget)
              obtain ⟨r0, hr0, hr0c⟩ := this
              rw [hrec] at hr0
              exact ⟨r0, hr0, hr0c⟩
  · intro links
    induction links with
    | nil =>
      intro s i r0 hget hfail
      simp [runChain] at hget
    | cons link rest ih =>
      intro s i r0 hget hfail
      obtain ⟨nm, h⟩ := link
      cases hh : h s with
      | mk s1 ok =>
        cases ok with
        | false =>
          simp only [runChain, hh] at hget ⊢
          cases i with
          | zero => rfl
          | succ j => simp at hget
        | true =>
          simp only [runChain, hh] at hget ⊢
          cases hrec : runChain σ rest s1 with
          | mk s2 recs =>
            rw [hrec] at hget
            dsimp only at hget ⊢
            cases i with
            | zero =>
              cases hget
              simp at hfail
            | succ j =>
              have hlen := ih s1 j r0 (by rw [hrec]; exact hget) hfail
              rw [hrec] at hlen
              dsimp only at hlen
              simp only [List.length_cons]
              omega
  · intro n1 n2 n3 h1 h2 h3 s ht hf
    cases hh1 : h1 s with
    | mk s1 b1 =>
      have hb1 := ht s
      rw [hh1] at hb1
      dsimp only at hb1
      subst hb1
      cases hh2 : h2 s1 with
      | mk s2 b2 =>
        have hb2 := hf s1
        rw [hh2] at hb2
        dsimp only at hb2
        subst hb2
        simp [runChain, hh1, hh2]

/-- Witness for C4: a concrete 3-link chain whose middle link fails
records exactly one completed link followed by one failed link. -/
theorem chain_fail_fast_instance :
    (runChain Unit [("link1", fun t => (t, true)), ("link2", fun t => (t, false)),
      ("link3", fun t => (t, true))] ()).2 =
      [⟨"link1", .completed⟩, ⟨"link2", .failed⟩] :=
  (chain_fail_fast Unit).2.2 "link1" "link2" "link3"
    (fun t => (t, true)) (fun t => (t, false)) (fun t => (t, true)) ()
    (fun _ => rfl) (fun _ => rfl)

end Fullstack
